import Mathlib

/-!
Shallow embedding of `github_trending.py` (repository ram0973/9_github_trending).

The program is a single-pass reporting utility: it checks the GitHub API
rate limit, fetches trending repositories created within the last week,
enriches each with its open-issue URLs (pull requests filtered out), and
prints the result.  HTTP I/O is embedded by passing the session GET
behaviour as an explicit function; Python exceptions become an explicit
error type threaded through `Except`.
-/

/-- Equality of `Except` values is decidable componentwise. -/
instance {ε α : Type} [DecidableEq ε] [DecidableEq α] :
    DecidableEq (Except ε α) :=
  fun a b =>
    match a, b with
    | .error e, .error f =>
      if h : e = f then isTrue (by rw [h])
      else isFalse (by intro hc; cases hc; exact h rfl)
    | .ok x, .ok y =>
      if h : x = y then isTrue (by rw [h])
      else isFalse (by intro hc; cases hc; exact h rfl)
    | .error _, .ok _ => isFalse (by intro hc; cases hc)
    | .ok _, .error _ => isFalse (by intro hc; cases hc)

namespace GithubTrending

/-- Source constant `REPOSITORIES_CREATION_PERIOD = 7` (days). -/
def REPOSITORIES_CREATION_PERIOD : Nat := 7

/-- Source constant `TOP_REPOSITORIES_COUNT = 20`. -/
def TOP_REPOSITORIES_COUNT : Nat := 20

/-- A repository record, with the JSON fields the program reads:
`owner.login`, `name`, `stargazers_count`, and the creation date
(`created_at`, modelled as days since an arbitrary epoch). -/
structure Repo where
  ownerLogin : String
  name : String
  stargazersCount : Nat
  createdAt : Nat
  deriving DecidableEq, Repr

/-- An issue record: its `url` field and whether the JSON object carries a
`pull_request` back-reference key (the Python membership test on the record). -/
structure Issue where
  url : String
  hasPullRequestKey : Bool
  deriving DecidableEq, Repr

/-- The response headers the program reads: `X-RateLimit-Remaining`,
`none` when the header is absent, otherwise its raw string value. -/
structure Headers where
  xRateLimitRemaining : Option String
  deriving DecidableEq, Repr

/-- An HTTP response as seen by the program: headers, status code with its
reason phrase, and a parsed JSON body of type `β`. -/
structure HttpResponse (β : Type) where
  headers : Headers
  status : Nat
  reason : String
  body : β
  deriving DecidableEq, Repr

/-- Body of the `search/repositories` response: the `items` array. -/
structure SearchBody where
  items : List Repo
  deriving DecidableEq, Repr

/-- Query parameters the program sends to `search/repositories`:
`q = created:>{date}` (the date kept as a number), `sort`, `order`. -/
structure SearchParams where
  createdAfter : Nat
  sort : String
  order : String
  deriving DecidableEq, Repr

/-- Python exceptions that can cross the function boundaries:
the four `requests` exceptions caught by the decorator, the
`GitHubRateLimitExceeded` exception the program defines (carrying the
response headers), and the builtin `KeyError` / `ValueError` that the
header lookup and `int(...)` can raise. -/
inductive PyError where
  | connectionError
  | httpError (reason : String) (status : Nat)
  | timeout
  | tooManyRedirects
  | rateLimitExceeded (headers : Headers)
  | keyError (key : String)
  | valueError (value : String)
  deriving DecidableEq, Repr

/-- Which exceptions the decorator `handle_requests_library_exceptions`
catches (each handler prints a message and exits 1); everything else
escapes it. -/
def handle_requests_library_exceptions_catches : PyError → Bool
  | .connectionError => true
  | .httpError _ _ => true
  | .timeout => true
  | .tooManyRedirects => true
  | _ => false

/-- Decimal value of one digit character, `none` for a non-digit. -/
def digitVal (c : Char) : Option Nat :=
  if '0' ≤ c ∧ c ≤ '9' then some (c.toNat - '0'.toNat) else none

/-- Accumulate decimal digits left to right; `none` on a non-digit. -/
def digitsToNatAux : List Char → Nat → Option Nat
  | [], acc => some acc
  | c :: cs, acc =>
    match digitVal c with
    | none => none
    | some d => digitsToNatAux cs (acc * 10 + d)

/-- Parse a nonempty all-digit character list as a natural number. -/
def digitsToNat : List Char → Option Nat
  | [] => none
  | cs => digitsToNatAux cs 0

/-- Drop leading whitespace characters. -/
def dropSpaces : List Char → List Char
  | [] => []
  | c :: cs => if c.isWhitespace then dropSpaces cs else c :: cs

/-- Strip whitespace from both ends. -/
def pyTrim (cs : List Char) : List Char :=
  (dropSpaces (dropSpaces cs).reverse).reverse

/-- The Python builtin `int(s)` on a string: optional surrounding
whitespace, an optional sign, then decimal digits; raises `ValueError`
otherwise. -/
def pyInt (s : String) : Option Int :=
  match pyTrim s.data with
  | '-' :: cs => (digitsToNat cs).map (fun n => -(n : Int))
  | '+' :: cs => (digitsToNat cs).map (fun n => (n : Int))
  | cs => (digitsToNat cs).map (fun n => (n : Int))

/-- Reading the rate-limit header, the source expression being `int` of
the header lookup: `KeyError` when the header is absent, `ValueError`
when its value is not an integer literal. -/
def readRateLimitRemaining (h : Headers) : Except PyError Int :=
  match h.xRateLimitRemaining with
  | none => .error (.keyError "X-RateLimit-Remaining")
  | some s =>
    match pyInt s with
    | none => .error (.valueError s)
    | some n => .ok n

/-- The method `response.raise_for_status()`: raises `HTTPError` on a
4xx or 5xx status code, otherwise does nothing. -/
def raise_for_status (status : Nat) (reason : String) : Except PyError Unit :=
  if 400 ≤ status ∧ status < 600 then .error (.httpError reason status)
  else .ok ()

/-- The search parameters built inside `get_trending_repositories`: the
query asks for repositories created after `date.today()` minus
`timedelta(days=7)`, sorted by stars descending. -/
def searchParamsFor (today : Nat) : SearchParams :=
  { createdAfter := today - REPOSITORIES_CREATION_PERIOD,
    sort := "stars", order := "desc" }

/-- Source function `get_trending_repositories(session, top_size)`:
computes the week-ago cutoff, performs the search GET (embedded as
`sessionGet`), raises `GitHubRateLimitExceeded` with the response headers
when the `X-RateLimit-Remaining` header reads zero, otherwise checks the
HTTP status and returns the `items` array of the response body truncated
to `top_size`. -/
def get_trending_repositories
    (sessionGet : SearchParams → HttpResponse SearchBody)
    (today : Nat) (top_size : Nat) : Except PyError (List Repo) :=
  match readRateLimitRemaining (sessionGet (searchParamsFor today)).headers with
  | .error e => .error e
  | .ok remaining =>
    if remaining = 0 then
      .error (.rateLimitExceeded (sessionGet (searchParamsFor today)).headers)
    else
      match raise_for_status (sessionGet (searchParamsFor today)).status
          (sessionGet (searchParamsFor today)).reason with
      | .error e => .error e
      | .ok _ => .ok ((sessionGet (searchParamsFor today)).body.items.take top_size)

/-- Source function `get_open_issues(session, repo_owner, repo_name)`:
performs the issues GET (embedded as `issuesGet`), raises
`GitHubRateLimitExceeded` when the `X-RateLimit-Remaining` header reads
zero, checks the HTTP status, and returns the issues whose record has no
`pull_request` key. -/
def get_open_issues
    (issuesGet : String → String → HttpResponse (List Issue))
    (repo_owner : String) (repo_name : String) :
    Except PyError (List Issue) :=
  match readRateLimitRemaining (issuesGet repo_owner repo_name).headers with
  | .error e => .error e
  | .ok remaining =>
    if remaining = 0 then
      .error (.rateLimitExceeded (issuesGet repo_owner repo_name).headers)
    else
      match raise_for_status (issuesGet repo_owner repo_name).status
          (issuesGet repo_owner repo_name).reason with
      | .error e => .error e
      | .ok _ =>
        .ok ((issuesGet repo_owner repo_name).body.filter
               (fun issue => !issue.hasPullRequestKey))

/-- Source function `get_open_issues_amount(session, repo_owner,
repo_name)`: the length of the `get_open_issues` result. -/
def get_open_issues_amount
    (issuesGet : String → String → HttpResponse (List Issue))
    (repo_owner : String) (repo_name : String) : Except PyError Nat :=
  match get_open_issues issuesGet repo_owner repo_name with
  | .error e => .error e
  | .ok issues => .ok issues.length

/-- Source function `get_open_issues_urls(issues)`: the `url` field of
each issue, in order. -/
def get_open_issues_urls (issues : List Issue) : List String :=
  issues.map Issue.url

/-- One element of the list built by `get_repos_with_issues`: the dict
with keys `repo` and `open_issues_urls`. -/
structure RepoWithIssues where
  repo : Repo
  open_issues_urls : List String
  deriving DecidableEq, Repr

/-- Source function `get_repos_with_issues(session, repos)`: for each
repository in order, fetch its open issues (any exception propagates and
aborts the batch), compute the URL list guarded by the truthiness of the
issue list, and append the pair to the result list. -/
def get_repos_with_issues
    (issuesGet : String → String → HttpResponse (List Issue)) :
    List Repo → Except PyError (List RepoWithIssues)
  | [] => .ok []
  | repo :: rest =>
    match get_open_issues issuesGet repo.ownerLogin repo.name with
    | .error e => .error e
    | .ok issues =>
      let urls := if issues.isEmpty then [] else get_open_issues_urls issues
      match get_repos_with_issues issuesGet rest with
      | .error e => .error e
      | .ok tail => .ok ({ repo := repo, open_issues_urls := urls } :: tail)

/-- The lines printed by `print_repos_info` for one list element: owner
login, repository name, star count, issue count, then — only when the
count is nonzero — the header line and each issue URL. -/
def repoInfoLines (item : RepoWithIssues) : List String :=
  ["\nВладелец репо:  " ++ item.repo.ownerLogin,
   "Название репо:  " ++ item.repo.name,
   "Звёзд:  " ++ toString item.repo.stargazersCount,
   "Количество issue: " ++ toString item.open_issues_urls.length] ++
  (if item.open_issues_urls.length ≠ 0 then
     "Ссылки на issue:" :: item.open_issues_urls
   else [])

/-- Source function `print_repos_info(repos_with_issues)`: the Python
`for` loop printing each repository block in turn, modelled as the
sequence of printed lines accumulated left to right. -/
def print_repos_info (repos_with_issues : List RepoWithIssues) :
    List String :=
  repos_with_issues.foldl (fun acc item => acc ++ repoInfoLines item) []

/-- One quota category of the `rate_limit` JSON: `remaining`, `limit`,
and the `reset` timestamp. -/
structure RateCategory where
  remaining : Nat
  limit : Nat
  reset : Nat
  deriving DecidableEq, Repr

/-- The `resources` object of the `rate_limit` JSON: the `search` and
`core` categories, and optionally a `graphql` category. -/
structure RateResources where
  search : RateCategory
  core : RateCategory
  graphql : Option RateCategory
  deriving DecidableEq, Repr

/-- Source function `print_github_api_rate_status(api_rate)`: prints
remaining/limit and a formatted reset time for the search category, then
— when present — for the graphql category, then for the core category.
Here `fmt` stands for the strftime-of-localtime formatting.  Note that
for the graphql block the source (line 193) formats the reset field of
the search category, not the graphql reset. -/
def print_github_api_rate_status (fmt : Nat → String)
    (api_rate : RateResources) : List String :=
  ["Ограничение поисковых запросов: " ++ toString api_rate.search.remaining
     ++ " из " ++ toString api_rate.search.limit,
   "Отмена ограничений на них в " ++ fmt api_rate.search.reset ++ "\n"] ++
  (match api_rate.graphql with
   | some g =>
     ["Ограничение graphql запросов: " ++ toString g.remaining
        ++ " из " ++ toString g.limit,
      "Отмена ограничений на них в " ++ fmt api_rate.search.reset ++ "\n"]
   | none => []) ++
  ["Лимит всех остальных запросов: " ++ toString api_rate.core.remaining
     ++ " из " ++ toString api_rate.core.limit,
   "Отмена ограничений на них в " ++ fmt api_rate.core.reset]

/-- Observable outcome of the `__main__` block: the process exit code,
whether the quota status was re-displayed by the
`GitHubRateLimitExceeded` handler, whether `get_repos_with_issues` was
ever invoked, and whether the final repository report was printed. -/
structure MainOutcome where
  exitCode : Nat
  printedQuotaAgain : Bool
  attemptedEnrichment : Bool
  printedReposInfo : Bool
  deriving DecidableEq, Repr

/-- The `__main__` control flow after the initial rate-status display:
`get_trending_repositories` then `get_repos_with_issues` inside a
`try`/`except GitHubRateLimitExceeded` that re-displays the quota status
and exits 1; decorator-handled request errors print a message and exit 1;
success prints the report and exits 0. -/
def mainFlow (sessionGet : SearchParams → HttpResponse SearchBody)
    (issuesGet : String → String → HttpResponse (List Issue))
    (today : Nat) : MainOutcome :=
  match get_trending_repositories sessionGet today TOP_REPOSITORIES_COUNT with
  | .error (.rateLimitExceeded _) =>
    { exitCode := 1, printedQuotaAgain := true,
      attemptedEnrichment := false, printedReposInfo := false }
  | .error _ =>
    { exitCode := 1, printedQuotaAgain := false,
      attemptedEnrichment := false, printedReposInfo := false }
  | .ok top_repos =>
    match get_repos_with_issues issuesGet top_repos with
    | .error (.rateLimitExceeded _) =>
      { exitCode := 1, printedQuotaAgain := true,
        attemptedEnrichment := true, printedReposInfo := false }
    | .error _ =>
      { exitCode := 1, printedQuotaAgain := false,
        attemptedEnrichment := true, printedReposInfo := false }
    | .ok _ =>
      { exitCode := 0, printedQuotaAgain := false,
        attemptedEnrichment := true, printedReposInfo := true }

/-! ## Concrete fixtures (sample sessions and records used as witnesses) -/

/-- Sample repository created the day before `today = 20`. -/
def repoA : Repo :=
  { ownerLogin := "alice", name := "alpha", stargazersCount := 120,
    createdAt := 19 }

/-- Second sample repository, created two days before `today = 20`. -/
def repoB : Repo :=
  { ownerLogin := "bob", name := "beta", stargazersCount := 80,
    createdAt := 18 }

/-- A search session whose response has quota left and two fresh items. -/
def searchGetA : SearchParams → HttpResponse SearchBody :=
  fun _ =>
    { headers := { xRateLimitRemaining := some "29" }, status := 200,
      reason := "OK", body := { items := [repoA, repoB] } }

/-- A search session whose response reports an exhausted quota together
with a failing HTTP status. -/
def searchGetQuota : SearchParams → HttpResponse SearchBody :=
  fun _ =>
    { headers := { xRateLimitRemaining := some "0" }, status := 403,
      reason := "Forbidden", body := { items := [] } }

/-- An issues session whose response reports an exhausted quota together
with a server-error status. -/
def issuesGetQuota : String → String → HttpResponse (List Issue) :=
  fun _ _ =>
    { headers := { xRateLimitRemaining := some "0" }, status := 500,
      reason := "Internal Server Error", body := [] }

/-- Sample open issue. -/
def issueU1 : Issue :=
  { url := "https://api.github.com/repos/alice/alpha/issues/1",
    hasPullRequestKey := false }

/-- Sample pull request (its record carries the `pull_request` key). -/
def issuePR : Issue :=
  { url := "https://api.github.com/repos/alice/alpha/issues/2",
    hasPullRequestKey := true }

/-- Second sample open issue. -/
def issueU3 : Issue :=
  { url := "https://api.github.com/repos/alice/alpha/issues/3",
    hasPullRequestKey := false }

/-- An issues session returning 2 open issues and 1 pull request. -/
def issuesGetMixed : String → String → HttpResponse (List Issue) :=
  fun _ _ =>
    { headers := { xRateLimitRemaining := some "57" }, status := 200,
      reason := "OK", body := [issueU1, issuePR, issueU3] }

/-- An issues session answering 404 Not Found (with quota left). -/
def issuesGet404 : String → String → HttpResponse (List Issue) :=
  fun _ _ =>
    { headers := { xRateLimitRemaining := some "12" }, status := 404,
      reason := "Not Found", body := [] }

/-- The enrichment output expected from `issuesGetMixed` on two repos. -/
def enrichedAB : List RepoWithIssues :=
  [{ repo := repoA, open_issues_urls := [issueU1.url, issueU3.url] },
   { repo := repoB, open_issues_urls := [issueU1.url, issueU3.url] }]

/-- Third sample repository. -/
def repoC : Repo :=
  { ownerLogin := "carol", name := "gamma", stargazersCount := 50,
    createdAt := 17 }

/-- Enriched pair with zero issues for `repoA`. -/
def zeroA : RepoWithIssues := { repo := repoA, open_issues_urls := [] }

/-- Enriched pair with zero issues for `repoB`. -/
def zeroB : RepoWithIssues := { repo := repoB, open_issues_urls := [] }

/-- Enriched pair with zero issues for `repoC`. -/
def zeroC : RepoWithIssues := { repo := repoC, open_issues_urls := [] }

/-- A quota structure with all three categories present, whose graphql
reset (200) differs from the search reset (100). -/
def rateAll : RateResources :=
  { search := { remaining := 9, limit := 30, reset := 100 },
    core := { remaining := 4999, limit := 5000, reset := 300 },
    graphql := some { remaining := 5, limit := 5000, reset := 200 } }

/-- A search session whose response lacks the `X-RateLimit-Remaining`
header entirely. -/
def searchGetNoHeader : SearchParams → HttpResponse SearchBody :=
  fun _ =>
    { headers := { xRateLimitRemaining := none }, status := 200,
      reason := "OK", body := { items := [] } }

/-- An issues session whose response carries a non-numeric
`X-RateLimit-Remaining` value. -/
def issuesGetBadValue : String → String → HttpResponse (List Issue) :=
  fun _ _ =>
    { headers := { xRateLimitRemaining := some "unknown" }, status := 200,
      reason := "OK", body := [] }

/-! ## Helper lemmas -/

/-- Success of `get_trending_repositories` yields exactly the first
`top_size` items of the search response body. -/
theorem get_trending_repositories_ok_shape
    (sessionGet : SearchParams → HttpResponse SearchBody)
    (today top_size : Nat) (l : List Repo)
    (h : get_trending_repositories sessionGet today top_size = .ok l) :
    l = (sessionGet (searchParamsFor today)).body.items.take top_size := by
  unfold get_trending_repositories at h
  split at h
  · exact absurd h (by simp)
  · split at h
    · exact absurd h (by simp)
    · split at h
      · exact absurd h (by simp)
      · exact (Except.ok.inj h).symm

/-- Success of `get_open_issues` yields exactly the response body with the
pull requests filtered out. -/
theorem get_open_issues_ok_shape
    (issuesGet : String → String → HttpResponse (List Issue))
    (repo_owner repo_name : String) (l : List Issue)
    (h : get_open_issues issuesGet repo_owner repo_name = .ok l) :
    l = (issuesGet repo_owner repo_name).body.filter
          (fun issue => !issue.hasPullRequestKey) := by
  unfold get_open_issues at h
  split at h
  · exact absurd h (by simp)
  · split at h
    · exact absurd h (by simp)
    · split at h
      · exact absurd h (by simp)
      · exact (Except.ok.inj h).symm

/-- When the `X-RateLimit-Remaining` header of the search response parses
to zero, `get_trending_repositories` raises `GitHubRateLimitExceeded`
with the headers of that response, whatever the status code. -/
theorem get_trending_repositories_zero_remaining
    (sessionGet : SearchParams → HttpResponse SearchBody)
    (today top_size : Nat)
    (hs : readRateLimitRemaining (sessionGet (searchParamsFor today)).headers
            = .ok 0) :
    get_trending_repositories sessionGet today top_size =
      .error (.rateLimitExceeded (sessionGet (searchParamsFor today)).headers) := by
  unfold get_trending_repositories
  rw [hs]
  simp

/-- When the `X-RateLimit-Remaining` header of the issues response parses
to zero, `get_open_issues` raises `GitHubRateLimitExceeded` with the
headers of that response, whatever the status code. -/
theorem get_open_issues_zero_remaining
    (issuesGet : String → String → HttpResponse (List Issue))
    (repo_owner repo_name : String)
    (hi : readRateLimitRemaining (issuesGet repo_owner repo_name).headers
            = .ok 0) :
    get_open_issues issuesGet repo_owner repo_name =
      .error (.rateLimitExceeded (issuesGet repo_owner repo_name).headers) := by
  unfold get_open_issues
  rw [hi]
  simp

/-- Claim C4: for every input repository list, a successful enrichment
produces exactly one output pair per input repository, and the i-th
input repository maps to the i-th output pair. -/
theorem C4_enrichment_preserves_order
    (issuesGet : String → String → HttpResponse (List Issue))
    (repos : List Repo) (out : List RepoWithIssues)
    (h : get_repos_with_issues issuesGet repos = .ok out) :
    out.length = repos.length ∧
      ∀ i (h1 : i < out.length) (h2 : i < repos.length),
        (out.get ⟨i, h1⟩).repo = repos.get ⟨i, h2⟩ := by
  induction repos generalizing out with
  | nil =>
    unfold get_repos_with_issues at h
    cases h
    exact ⟨rfl, by intro i h1 h2; exact absurd h1 (by simp)⟩
  | cons repo rest ih =>
    unfold get_repos_with_issues at h
    cases hf : get_open_issues issuesGet repo.ownerLogin repo.name with
    | error e => rw [hf] at h; exact absurd h (by simp)
    | ok issues =>
      rw [hf] at h
      simp only at h
      cases ht : get_repos_with_issues issuesGet rest with
      | error e => rw [ht] at h; exact absurd h (by simp)
      | ok tail =>
        rw [ht] at h
        cases h
        obtain ⟨hlen, hnth⟩ := ih tail ht
        refine ⟨by simp [hlen], ?_⟩
        intro i h1 h2
        cases i with
        | zero => rfl
        | succ j =>
          exact hnth j (by simpa using h1) (by simpa using h2)

/-- Success of `get_repos_with_issues` requires the issue fetch of every
repository to have succeeded. -/
theorem get_repos_with_issues_ok_all_fetches
    (issuesGet : String → String → HttpResponse (List Issue))
    (repos : List Repo) (out : List RepoWithIssues)
    (h : get_repos_with_issues issuesGet repos = .ok out) :
    ∀ r ∈ repos, ∃ issues,
      get_open_issues issuesGet r.ownerLogin r.name = .ok issues := by
  induction repos generalizing out with
  | nil => intro r hr; exact absurd hr (by simp)
  | cons repo rest ih =>
    unfold get_repos_with_issues at h
    cases hf : get_open_issues issuesGet repo.ownerLogin repo.name with
    | error e => rw [hf] at h; exact absurd h (by simp)
    | ok issues =>
      rw [hf] at h
      simp only at h
      cases ht : get_repos_with_issues issuesGet rest with
      | error e => rw [ht] at h; exact absurd h (by simp)
      | ok tail =>
        intro r hr
        rcases List.mem_cons.mp hr with hr | hr
        · exact ⟨issues, hr ▸ hf⟩
        · exact ih tail ht r hr

/-- A successful enrichment pairs each output entry with the URL
extraction of the fetched (filtered) issues of its repository. -/
theorem get_repos_with_issues_pairs
    (issuesGet : String → String → HttpResponse (List Issue))
    (repos : List Repo) (out : List RepoWithIssues)
    (h : get_repos_with_issues issuesGet repos = .ok out) :
    ∀ p ∈ out, ∃ issues,
      get_open_issues issuesGet p.repo.ownerLogin p.repo.name = .ok issues ∧
        p.open_issues_urls = get_open_issues_urls issues := by
  induction repos generalizing out with
  | nil =>
    unfold get_repos_with_issues at h
    cases h
    intro p hp
    exact absurd hp (by simp)
  | cons repo rest ih =>
    unfold get_repos_with_issues at h
    cases hf : get_open_issues issuesGet repo.ownerLogin repo.name with
    | error e => rw [hf] at h; exact absurd h (by simp)
    | ok issues =>
      rw [hf] at h
      simp only at h
      cases ht : get_repos_with_issues issuesGet rest with
      | error e => rw [ht] at h; exact absurd h (by simp)
      | ok tail =>
        rw [ht] at h
        cases h
        intro p hp
        rcases List.mem_cons.mp hp with hp | hp
        · subst hp
          refine ⟨issues, hf, ?_⟩
          cases issues with
          | nil => rfl
          | cons a l => rfl
        · exact ih tail ht p hp

/-- Folding the per-repository print blocks over an accumulator
concatenates the blocks after the accumulator. -/
theorem foldl_append_lines (f : RepoWithIssues → List String)
    (l : List RepoWithIssues) (acc : List String) :
    l.foldl (fun a x => a ++ f x) acc = acc ++ l.flatMap f := by
  induction l generalizing acc with
  | nil => simp
  | cons x xs ih => simp [List.foldl_cons, ih]

/-! ## Claims -/

/-- Claim C1: for the trending fetch with any desired count `N ≥ 0`, when
the search response honours its query (every item created strictly after
the `created:>` cutoff) and the fetch succeeds, the returned list
contains at most `N` repositories and no returned repository has a
creation date earlier than the cutoff date (today minus the 7-day
window). -/
theorem C1_trending_at_most_N_and_after_cutoff
    (sessionGet : SearchParams → HttpResponse SearchBody) (today N : Nat)
    (honest : ∀ r ∈ (sessionGet (searchParamsFor today)).body.items,
        (searchParamsFor today).createdAfter < r.createdAt)
    (l : List Repo)
    (h : get_trending_repositories sessionGet today N = .ok l) :
    l.length ≤ N ∧
      ∀ r ∈ l, ¬ r.createdAt < today - REPOSITORIES_CREATION_PERIOD := by
  have hl := get_trending_repositories_ok_shape sessionGet today N l h
  subst hl
  refine ⟨by simp [List.length_take], ?_⟩
  intro r hr
  have hmem : r ∈ (sessionGet (searchParamsFor today)).body.items :=
    List.mem_of_mem_take hr
  have hlt := honest r hmem
  simp only [searchParamsFor] at hlt
  exact Nat.not_lt.mpr hlt.le

/-- Witness for C1 at a concrete session: today 20, `N = 1`, both items
created after the cutoff, result `[repoA]`. -/
theorem C1_trending_at_most_N_and_after_cutoff_witness :
    [repoA].length ≤ 1 ∧
      ¬ repoA.createdAt < 20 - REPOSITORIES_CREATION_PERIOD :=
  ⟨(C1_trending_at_most_N_and_after_cutoff searchGetA 20 1 (by decide)
      [repoA] (by decide)).1,
   (C1_trending_at_most_N_and_after_cutoff searchGetA 20 1 (by decide)
      [repoA] (by decide)).2 repoA (by decide)⟩

/-- Claim C2: whenever the `X-RateLimit-Remaining` header of the search
or issues response parses to zero, the fetchers raise
`GitHubRateLimitExceeded` carrying the headers of that response,
regardless of the HTTP status code — never an ordinary HTTP failure. -/
theorem C2_zero_remaining_is_rate_limit_exceeded
    (sessionGet : SearchParams → HttpResponse SearchBody)
    (issuesGet : String → String → HttpResponse (List Issue))
    (today N : Nat) (repo_owner repo_name : String)
    (hs : readRateLimitRemaining (sessionGet (searchParamsFor today)).headers
            = .ok 0)
    (hi : readRateLimitRemaining (issuesGet repo_owner repo_name).headers
            = .ok 0) :
    get_trending_repositories sessionGet today N =
        .error (.rateLimitExceeded (sessionGet (searchParamsFor today)).headers) ∧
      get_open_issues issuesGet repo_owner repo_name =
        .error (.rateLimitExceeded (issuesGet repo_owner repo_name).headers) :=
  ⟨get_trending_repositories_zero_remaining sessionGet today N hs,
   get_open_issues_zero_remaining issuesGet repo_owner repo_name hi⟩

/-- Witness for C2: responses with `X-RateLimit-Remaining: 0` and failing
status codes (403 and 500) still yield the rate-limit exception. -/
theorem C2_zero_remaining_is_rate_limit_exceeded_witness :
    get_trending_repositories searchGetQuota 20 5 =
        .error (.rateLimitExceeded { xRateLimitRemaining := some "0" }) ∧
      get_open_issues issuesGetQuota "alice" "alpha" =
        .error (.rateLimitExceeded { xRateLimitRemaining := some "0" }) :=
  C2_zero_remaining_is_rate_limit_exceeded searchGetQuota issuesGetQuota
    20 5 "alice" "alpha" (by decide) (by decide)

/-- Claim C3: no issue returned by `get_open_issues` carries a
pull-request back-reference, and for a repository whose fetched issue set
has 2 open issues and 1 pull request, enrichment yields exactly those 2
issue URLs, in API response order. -/
theorem C3_no_pull_request_in_results :
    (∀ (issuesGet : String → String → HttpResponse (List Issue))
        (repo_owner repo_name : String) (l : List Issue),
        get_open_issues issuesGet repo_owner repo_name = .ok l →
        ∀ i ∈ l, i.hasPullRequestKey = false) ∧
      get_repos_with_issues issuesGetMixed [repoA] =
        .ok [{ repo := repoA, open_issues_urls := [issueU1.url, issueU3.url] }] := by
  constructor
  · intro issuesGet repo_owner repo_name l h i hi
    have hshape := get_open_issues_ok_shape issuesGet repo_owner repo_name l h
    subst hshape
    have := (List.mem_filter.mp hi).2
    simpa using this
  · decide

/-- Witness for C3 at the mixed issue list (2 issues, 1 pull request). -/
theorem C3_no_pull_request_in_results_witness :
    issueU1.hasPullRequestKey = false :=
  C3_no_pull_request_in_results.1 issuesGetMixed "alice" "alpha"
    [issueU1, issueU3] (by decide) issueU1 (by decide)

/-- Witness for C4 at a concrete enrichment of two repositories. -/
theorem C4_enrichment_preserves_order_witness :
    enrichedAB.length = [repoA, repoB].length ∧
      (enrichedAB.get ⟨0, by decide⟩).repo = [repoA, repoB].get ⟨0, by decide⟩ := by
  have h := C4_enrichment_preserves_order issuesGetMixed [repoA, repoB]
    enrichedAB (by decide)
  exact ⟨h.1, h.2 0 (by decide) (by decide)⟩

/-- Claim C5: if the issue fetch for some repository in the batch fails,
`get_repos_with_issues` never returns a (partial) enriched list: the
failure propagates and the whole batch is aborted. -/
theorem C5_single_failure_aborts_batch
    (issuesGet : String → String → HttpResponse (List Issue))
    (repos : List Repo)
    (h : ∃ r ∈ repos, ∃ e,
        get_open_issues issuesGet r.ownerLogin r.name = .error e) :
    ∀ out, get_repos_with_issues issuesGet repos ≠ .ok out := by
  intro out hres
  obtain ⟨r, hr, e, he⟩ := h
  obtain ⟨issues, hok⟩ :=
    get_repos_with_issues_ok_all_fetches issuesGet repos out hres r hr
  rw [hok] at he
  exact absurd he (by simp)

/-- Witness for C5: a 404 on the issue fetch of the single repository
means the batch result is not the (empty-issue) enriched list. -/
theorem C5_single_failure_aborts_batch_witness :
    get_repos_with_issues issuesGet404 [repoA] ≠
      .ok [{ repo := repoA, open_issues_urls := [] }] :=
  C5_single_failure_aborts_batch issuesGet404 [repoA]
    ⟨repoA, by decide, .httpError "Not Found" 404, by decide⟩
    [{ repo := repoA, open_issues_urls := [] }]

/-- Claim C6: when the rate-limit header of the search call reads
remaining = 0, the top-level flow re-displays the quota status and exits
with code 1, never attempting issue enrichment. -/
theorem C6_search_quota_exhausted_exits_one
    (sessionGet : SearchParams → HttpResponse SearchBody)
    (issuesGet : String → String → HttpResponse (List Issue)) (today : Nat)
    (hs : readRateLimitRemaining (sessionGet (searchParamsFor today)).headers
            = .ok 0) :
    mainFlow sessionGet issuesGet today =
      { exitCode := 1, printedQuotaAgain := true,
        attemptedEnrichment := false, printedReposInfo := false } := by
  unfold mainFlow
  rw [get_trending_repositories_zero_remaining sessionGet today
        TOP_REPOSITORIES_COUNT hs]

/-- Witness for C6 at a concrete exhausted-quota search session. -/
theorem C6_search_quota_exhausted_exits_one_witness :
    mainFlow searchGetQuota issuesGetMixed 20 =
      { exitCode := 1, printedQuotaAgain := true,
        attemptedEnrichment := false, printedReposInfo := false } :=
  C6_search_quota_exhausted_exits_one searchGetQuota issuesGetMixed 20
    (by decide)

/-- Claim C7 is violated by the code (src/github_trending.py line 193):
with a graphql category present whose reset (200) differs from the
search reset (100), the reset line of the graphql block shows the reset
time of the search category, not the graphql one. -/
theorem C7_graphql_reset_line_uses_search_reset :
    rateAll.graphql = some { remaining := 5, limit := 5000, reset := 200 } ∧
      (print_github_api_rate_status toString rateAll)[3]? =
        some ("Отмена ограничений на них в 100\n") ∧
      (print_github_api_rate_status toString rateAll)[3]? ≠
        some ("Отмена ограничений на них в 200\n") := by
  refine ⟨rfl, by decide, by decide⟩

/-- Claim C8: the presentation prints, for each repository in input
order, its owner login, name, star count and issue count, and the issue
URLs only when the count is nonzero; with 3 repositories of 0 issues the
output is 3 blocks each showing 0 issues and no URL lines. -/
theorem C8_print_blocks_in_order :
    (∀ items, print_repos_info items = items.flatMap repoInfoLines) ∧
      print_repos_info [zeroA, zeroB, zeroC] =
        ["\nВладелец репо:  alice", "Название репо:  alpha", "Звёзд:  120",
         "Количество issue: 0",
         "\nВладелец репо:  bob", "Название репо:  beta", "Звёзд:  80",
         "Количество issue: 0",
         "\nВладелец репо:  carol", "Название репо:  gamma", "Звёзд:  50",
         "Количество issue: 0"] := by
  constructor
  · intro items
    simpa using foldl_append_lines repoInfoLines items []
  · decide

/-- Witness for C8 at a concrete enriched list. -/
theorem C8_print_blocks_in_order_witness :
    print_repos_info enrichedAB = enrichedAB.flatMap repoInfoLines :=
  C8_print_blocks_in_order.1 enrichedAB

/-- Claim C9: a response lacking the `X-RateLimit-Remaining` header makes
`get_trending_repositories` raise `KeyError`, one with a non-integer
value makes `get_open_issues` raise `ValueError`, and neither exception
is among the four the error-translation decorator catches. -/
theorem C9_header_errors_escape_decorator :
    get_trending_repositories searchGetNoHeader 20 5 =
        .error (.keyError "X-RateLimit-Remaining") ∧
      get_open_issues issuesGetBadValue "alice" "alpha" =
        .error (.valueError "unknown") ∧
      handle_requests_library_exceptions_catches
          (.keyError "X-RateLimit-Remaining") = false ∧
      handle_requests_library_exceptions_catches
          (.valueError "unknown") = false := by
  exact ⟨by decide, by decide, rfl, rfl⟩

/-- Claim C10: `get_open_issues_amount` is the length of the
`get_open_issues` result for the same arguments; the truthiness guard on
the issue list in `get_repos_with_issues` is a no-op; and the URL list of
every enriched pair is exactly the in-order `url` extraction of the
fetched filtered issues of its repository. -/
theorem C10_amount_and_urls_agree :
    (∀ (issuesGet : String → String → HttpResponse (List Issue))
        (repo_owner repo_name : String) (issues : List Issue),
        get_open_issues issuesGet repo_owner repo_name = .ok issues →
        get_open_issues_amount issuesGet repo_owner repo_name =
          .ok issues.length) ∧
      (∀ issues : List Issue,
        (if issues.isEmpty then [] else get_open_issues_urls issues) =
          get_open_issues_urls issues) ∧
      (∀ (issuesGet : String → String → HttpResponse (List Issue))
          (repos : List Repo) (out : List RepoWithIssues),
        get_repos_with_issues issuesGet repos = .ok out →
        ∀ p ∈ out, ∃ issues,
          get_open_issues issuesGet p.repo.ownerLogin p.repo.name =
              .ok issues ∧
            p.open_issues_urls = get_open_issues_urls issues) := by
  refine ⟨?_, ?_, ?_⟩
  · intro issuesGet repo_owner repo_name issues h
    unfold get_open_issues_amount
    rw [h]
  · intro issues
    cases issues with
    | nil => rfl
    | cons a l => rfl
  · exact get_repos_with_issues_pairs

/-- Witness for C10 at the mixed issue list: 2 of the 3 fetched records
survive the pull-request filter, so the amount is 2. -/
theorem C10_amount_and_urls_agree_witness :
    get_open_issues_amount issuesGetMixed "alice" "alpha" = .ok 2 :=
  C10_amount_and_urls_agree.1 issuesGetMixed "alice" "alpha"
    [issueU1, issueU3] (by decide)

end GithubTrending
